import Mathlib

/-!
Verification of the libfp fat-pointer / dynamic-array / hash-table core.

This file gives a shallow embedding of the allocation, dynamic-array and
hopscotch hash-table primitives of the libfp repository
(src/include/fp/dynarray.h, src/include/fp/fnv1a.hpp and the unnamed
hash-table header src/unnamed/part_000) and proves or refutes the frozen
claims about them.

Machine integers (`size_t`, `uint64_t`) are modelled as `Nat` with explicit
`% 2 ^ 64` wherever the C computation can wrap.  Memory regions moved by
`memcpy`/`memmove`/`memswap` are modelled as `List` segments; an element of
a dynamic array is an opaque value (a type parameter, or `Nat` standing for
a fixed-size byte record in the hash-table model).  `uninit` parameters
stand for the indeterminate contents of freshly allocated slots.
-/

namespace LibFP

/-- Wraparound modulus of 64-bit machine arithmetic (`size_t`, `uint64_t`). -/
def U64 : Nat := 2 ^ 64

/-- SIZE_MAX, the not-found sentinel `fp_not_found` of the library. -/
def fp_not_found : Nat := U64 - 1

/-- Default initial allocation size in bytes (`FPDA_DEFAULT_SIZE_BYTES`). -/
def FPDA_DEFAULT_SIZE_BYTES : Nat := 16

/-- Translated from `fp_upper_power_of_two` (src/include/fp/dynarray.h):
`--v; v|=v>>1; v|=v>>2; v|=v>>4; v|=v>>8; v|=v>>16; v|=v>>32; ++v;`
on a `uint64_t` argument. -/
def fp_upper_power_of_two (v : Nat) : Nat :=
  let v := (v + (U64 - 1)) % U64
  let v := v ||| (v >>> 1)
  let v := v ||| (v >>> 2)
  let v := v ||| (v >>> 4)
  let v := v ||| (v >>> 8)
  let v := v ||| (v >>> 16)
  let v := v ||| (v >>> 32)
  (v + 1) % U64

/-! ### Fat-pointer header model (src/include/fp/fnv1a.hpp, pointer layer)

A (possibly null) data pointer is modelled as `Option` of the header words
that surround it: the `size_t` word immediately before the
`__FatPointerHeader` (which is the dynamic-array capacity field when the
allocation is a dynamic array, and arbitrary neighbouring memory otherwise
— `is_fp` peeks at it unconditionally), the magic tag and the size field. -/

structure __FatPointerHeaderModel where
  capacityWord : Nat
  magic : Nat
  size : Nat
deriving DecidableEq, Repr

def FP_MAGIC_NUMBER : Nat := 0xFE00
def FP_HEAP_MAGIC_NUMBER : Nat := 0xFEFE
def FP_STACK_MAGIC_NUMBER : Nat := 0xFEFF
def FP_DYNARRAY_MAGIC_NUMBER : Nat := 0xFEFD

/-- The static all-zero header returned by `__fpda_header_null_ref`. -/
def __fpda_header_null_ref : __FatPointerHeaderModel := ⟨0, 0, 0⟩

/-- Translated from `__fpda_header`: a NULL array dispatches to the static
null reference instead of being dereferenced. -/
def __fpda_header (da : Option __FatPointerHeaderModel) : __FatPointerHeaderModel :=
  match da with
  | none => __fpda_header_null_ref
  | some h => h

/-- Translated from `is_fp` (src/include/fp/fnv1a.hpp): explicit NULL check,
then `(h->magic & 0xFF00) == FP_MAGIC_NUMBER && (h->size > 0 || *capacity > 0)`
where `capacity` is the word just before the header. -/
def is_fp (p : Option __FatPointerHeaderModel) : Bool :=
  match p with
  | none => false
  | some h => (h.magic &&& 0xFF00 == FP_MAGIC_NUMBER) && (h.size > 0 || h.capacityWord > 0)

/-- Translated from `is_fpda` (src/include/fp/dynarray.h):
`__fpda_header(da)->h.magic == FP_DYNARRAY_MAGIC_NUMBER`. -/
def is_fpda (da : Option __FatPointerHeaderModel) : Bool :=
  (__fpda_header da).magic == FP_DYNARRAY_MAGIC_NUMBER

/-- Translated from `fp_length`: `if(!is_fp(p)) return 0; return header->size;`. -/
def fp_length (p : Option __FatPointerHeaderModel) : Nat :=
  if ¬ is_fp p then 0 else (__fpda_header p).size

/-- Translated from `fpda_capacity`: `if(!is_fpda(da)) return 0;
return __fpda_header(da)->capacity;`. -/
def fpda_capacity_of (da : Option __FatPointerHeaderModel) : Nat :=
  if ¬ is_fpda da then 0 else (__fpda_header da).capacityWord

/-- Translated from `fpda_free`: the underlying `__fp_alloc(h, 0)` deallocation
runs iff the header is not the static null reference, i.e. iff `da ≠ NULL`
(for non-null `da` the header lives inside `da`'s own allocation, a distinct
object from the static reference).  The result records whether `__fp_alloc`
was invoked. -/
def fpda_free_frees (da : Option __FatPointerHeaderModel) : Bool :=
  match da with
  | none => false
  | some _ => true

/-! ### Allocation-failure model (src/include/fp/fnv1a.hpp `__fp_alloc`,
src/include/fp/dynarray.h `__fpda_malloc`)

Addresses are `Nat`, with 0 playing NULL.  `allocRet` is the address the
pluggable allocator (`FP_ALLOCATION_FUNCTION`) returns for the request, 0
on failure.  Header sizes follow the x86-64 layout of the structs
(`uint16_t magic` padded + `size_t size` = 16 bytes; one extra `size_t`
capacity word for the dynamic-array header); only their positivity matters
to the theorems. -/

def FP_HEADER_SIZE : Nat := 16
def FPDA_HEADER_SIZE : Nat := FP_HEADER_SIZE + 8

/-- Translated from `__fp_alloc` for a fresh allocation (`_p = NULL`,
`_size > 0`): `p = allocator(...); if(!p) return 0; p += FP_HEADER_SIZE; ...
return p;` — the null check precedes the offset. -/
def __fp_alloc_ret (allocRet : Nat) : Nat :=
  if allocRet = 0 then 0 else allocRet + FP_HEADER_SIZE

/-- Translated from `__fpda_malloc`:
`p = __fp_alloc(NULL, size); p += FPDA_HEADER_SIZE + extra_header_size;
if(!p) return 0; h = __fpda_header(p); h->capacity = ...; ... return p;`
— the offset is added BEFORE the null check, then the header fields are
written unconditionally at `p - FPDA_HEADER_SIZE`. -/
def __fpda_malloc_ret (allocRet extra_header_size : Nat) : Nat :=
  let p := __fp_alloc_ret allocRet
  let p := p + FPDA_HEADER_SIZE + extra_header_size
  if p = 0 then 0 else p

/-- The address at which `__fpda_malloc` writes the dynamic-array header
(`h->capacity`, `h->h.magic`, `h->h.size`) after its null check. -/
def __fpda_malloc_header_addr (allocRet extra_header_size : Nat) : Nat :=
  __fp_alloc_ret allocRet + FPDA_HEADER_SIZE + extra_header_size - FPDA_HEADER_SIZE

/-! ### View model (src/include/fp/fnv1a.hpp view layer)

A `fp_void_view` is a `(pointer, size)` pair over bytes; it is modelled as
the list of viewed bytes together with the stored size field. -/

structure fp_void_view where
  data : List Nat
  size : Nat
deriving DecidableEq, Repr

/-- memcmp over the first `n` bytes, sign-normalised to -1/0/1 (the C
standard only specifies the sign of the result). -/
def memcmp : List Nat → List Nat → Nat → Int
  | _, _, 0 => 0
  | a, b, n + 1 =>
    let x := a.headD 0
    let y := b.headD 0
    if x < y then -1 else if y < x then 1 else memcmp a.tail b.tail n

/-- Translated from `fp_view_compare` (src/include/fp/fnv1a.hpp, fp_void_view
version): `if(fp_view_size(a) != fp_view_size(b)) return false;` — the C
`false` converts to the int 0 — `return memcmp(a.data, b.data, a.size);`. -/
def fp_view_compare (a b : fp_void_view) : Int :=
  if a.size ≠ b.size then 0
  else memcmp a.data b.data a.size

/-- Translated from `fp_view_equal`: `fp_view_compare(a, b) == 0`. -/
def fp_view_equal (a b : fp_void_view) : Bool :=
  fp_view_compare a b == 0

/-! ### Memory-region helpers

`readRegion mem off len` are the `len` cells starting at offset `off`;
`writeRegion mem off repl` overwrites the cells starting at `off` with
`repl`.  They model `memcpy`/`memmove` source reads and destination writes
(a `memmove`, and a `memcpy` through a separate buffer, give the
destination the ORIGINAL source cells, which is what
`writeRegion mem dst (readRegion mem src len)` computes). -/

def readRegion (mem : List α) (off len : Nat) : List α :=
  (mem.drop off).take len

def writeRegion (mem : List α) (off : Nat) (repl : List α) : List α :=
  mem.take off ++ repl ++ mem.drop (off + repl.length)

/-- Translated from `memswap` (src/include/fp/fnv1a.hpp):
`if (a == b) return nullptr;` then, via an `n`-byte `fp_alloca` scratch
buffer, `memcpy(buffer, a, n); memmove(a, b, n); memcpy(b, buffer, n);`. -/
def memswap (mem : List α) (a b n : Nat) : List α :=
  if a = b then mem
  else
    let buffer := readRegion mem a n
    let mem1 := writeRegion mem a (readRegion mem b n)
    writeRegion mem1 b buffer

/-! ### Dynamic-array model (src/include/fp/dynarray.h)

A non-null dynamic array is its header fields plus the allocated element
buffer: `data.length = capacity` and `size ≤ capacity` for well-formed
arrays.  Byte quantities in the C source are `type_size` times the element
counts used here; all `memcpy`/`memmove` lengths in the modelled routines
are whole multiples of `type_size`, and multiplying a wrapped `size_t`
element count by `type_size` is congruent mod `2 ^ 64` to wrapping the
byte count itself, so the element-level wraparound model agrees with the
byte-level one. -/

structure DynArray (α : Type) where
  size : Nat
  capacity : Nat
  data : List α
deriving DecidableEq, Repr

/-- Result of `__fpda_maybe_grow`: the updated array, the byte offset (from
the data base, mod `2 ^ 64`) of the returned pointer, and whether the grow
branch ran (new allocation written, `size` live elements copied across, old
storage freed, pointer swapped). -/
structure GrowResult (α : Type) where
  arr : DynArray α
  ret_off : Nat
  reallocated : Bool
deriving DecidableEq, Repr

/-- Translated from `__FP_MAYBE_GROW_IMPL` / `__fpda_maybe_grow`
(src/include/fp/dynarray.h).  A `none` argument is a NULL array: an initial
buffer of `exact_sizing ? new_size : FPDA_DEFAULT_SIZE_BYTES / type_size`
elements (at least 1) is allocated with `size = 0` first.  Then: if
`capacity >= new_size`, no reallocation, `size = max(size, new_size)` when
`update_utilized`, return `data + type_size*(new_size - 1)`; otherwise
reallocate to `exact_sizing ? new_size : fp_upper_power_of_two(new_size)`
capacity, set the new size (`max` when `update_utilized`, else the 0 that
`__fpda_malloc` wrote), `memcpy` the old `size` live elements across, free
the old storage and return the same element offset in the new buffer. -/
def __fpda_maybe_grow (da : Option (DynArray α)) (uninit : α)
    (type_size new_size : Nat) (update_utilized exact_sizing : Bool) :
    GrowResult α :=
  let st : DynArray α :=
    match da with
    | some st => st
    | none =>
      let initial_size := if exact_sizing then new_size else FPDA_DEFAULT_SIZE_BYTES / type_size
      let initial_size := if initial_size = 0 then initial_size + 1 else initial_size
      { size := 0, capacity := initial_size, data := List.replicate initial_size uninit }
  let retOff := (type_size * ((new_size + (U64 - 1)) % U64)) % U64
  if st.capacity ≥ new_size then
    let size' := if update_utilized then max st.size new_size else st.size
    { arr := { st with size := size' }, ret_off := retOff, reallocated := false }
  else
    let size2 := if exact_sizing then new_size else fp_upper_power_of_two new_size
    let size' := if update_utilized then max st.size new_size else 0
    let newData := st.data.take st.size ++ List.replicate (size2 - st.size) uninit
    { arr := { size := size', capacity := size2, data := newData },
      ret_off := retOff, reallocated := true }

/-- Translated from `__fpda_delete` (src/include/fp/dynarray.h), at element
granularity with explicit `size_t` wraparound (`fpda_resize` reaches this
routine with a wrapped-around `count` when the target size exceeds the
current size, so the wraparound is semantically significant):
`newStart = raw + start; oldStart = newStart + count;
length = (raw + size) - oldStart;` then either the exact-fit path
(`make_size_match_capacity`): allocate a `newLength = size - count` buffer
with `size = capacity = newLength`, `memcpy(new, raw, newStart - new)`
when `oldStart != raw`, `memcpy(newStart, oldStart, length)`, free the old
buffer; or the in-place path: `size -= count; memmove(newStart, oldStart,
length)` when `count > 0`. -/
def __fpda_delete (st : DynArray α) (uninit : α) (start count : Nat)
    (make_size_match_capacity : Bool) : DynArray α :=
  let newStart := start % U64
  let oldStart := (start + count) % U64
  let length := (st.size + U64 - oldStart) % U64
  if make_size_match_capacity then
    let newLength := (st.size + U64 - count % U64) % U64
    let base : List α := List.replicate newLength uninit
    let buf1 := if oldStart ≠ 0 then writeRegion base 0 (readRegion st.data 0 newStart) else base
    let buf2 := writeRegion buf1 newStart (readRegion st.data oldStart length)
    { size := newLength, capacity := newLength, data := buf2 }
  else if count ≠ 0 then
    { st with size := (st.size + U64 - count % U64) % U64,
              data := writeRegion st.data newStart (readRegion st.data oldStart length) }
  else st

/-- Translated from `fpda_resize` (src/include/fp/dynarray.h):
`if(_size > fpda_capacity(a)) fpda_grow_to_size(a, _size);
else { count = fpda_size(a) - _size;
fpda_shrink_delete_range(a, fpda_size(a) - count, count); }`
for a non-null array (`fpda_grow_to_size` is `__fpda_maybe_grow` with
`update_utilized` and `exact_sizing` both set; the subtractions are
`size_t` arithmetic and wrap when `_size > fpda_size(a)`). -/
def fpda_resize (st : DynArray α) (uninit : α) (s : Nat) : DynArray α :=
  if s > st.capacity then
    (__fpda_maybe_grow (some st) uninit 1 s true true).arr
  else
    let count := (st.size + U64 - s % U64) % U64
    __fpda_delete st uninit ((st.size + U64 - count % U64) % U64) count true

/-- Translated from `__fpda_clone` with `__fpda_clone_to` inlined at
`dest = NULL`, `shrink_to_fit = true` (src/include/fp/dynarray.h):
`if(src == NULL) return NULL; newCapacity = fpda_size(src);
fpda_grow_to_size(rawDest, newCapacity * type_size)` — a fresh byte buffer
of `newCapacity * type_size` bytes, i.e. `newCapacity` elements, with its
size field set to that byte count — then
`memcpy(rawDest, src, fpda_size(rawDest))` copies exactly those
`fpda_size(src)` elements, and the header is rewritten to
`capacity = newCapacity, size = fpda_size(src)`. -/
def __fpda_clone (src : Option (DynArray α)) (uninit : α) : Option (DynArray α) :=
  match src with
  | none => none
  | some st =>
    let newCapacity := st.size
    let base : List α := List.replicate newCapacity uninit
    let buf := writeRegion base 0 (readRegion st.data 0 newCapacity)
    some { size := st.size, capacity := newCapacity, data := buf }

/-- Translated from `__fpda_swap_range` (src/include/fp/dynarray.h), at byte
granularity over the allocated buffer (`st.data` has `capacity * type_size`
bytes here; `range1_start`, `range2_start`, `count` are element counts):
`start1/start2/end1/end2` are byte addresses, `overlapping` compares the
inclusive end of each range against the other start, and `scratch` is the
spare trailing capacity when `capacity - size > count`, else an `fp_alloca`
buffer.  The `bidirectional` path (used by `fpda_swap_range`) calls
`memswap(start1, start2, length)` unconditionally — the scratch buffer is
computed but unused there.  The non-bidirectional overlapping path does
`memcpy(scratch, start1, length); memcpy(start2, scratch, length)` (when
the scratch aliases the trailing live elements, the first copy lands
there; the second `memcpy` over overlapping regions is UB in C and is
modelled as a buffered copy). -/
def __fpda_swap_range (st : DynArray α) (type_size range1_start range2_start count : Nat)
    (bidirectional : Bool) : List α :=
  let start1 := type_size * range1_start
  let start2 := type_size * range2_start
  let length := count * type_size
  let end1 := start1 + length - 1
  let end2 := start2 + length - 1
  let overlapping := ¬ (end1 ≤ start2 ∨ end2 ≤ start1)
  if bidirectional then
    memswap st.data start1 start2 length
  else if overlapping then
    if st.capacity - st.size > count then
      let scratchOff := type_size * st.size - length
      let mem1 := writeRegion st.data scratchOff (readRegion st.data start1 length)
      writeRegion mem1 start2 (readRegion mem1 scratchOff length)
    else
      writeRegion st.data start2 (readRegion st.data start1 length)
  else
    writeRegion st.data start2 (readRegion st.data start1 length)

/-- Translated from `fpda_swap_range`:
`__fpda_swap_range(a, sizeof(*a), start1, start2, count, true)`. -/
def fpda_swap_range (st : DynArray α) (type_size range1_start range2_start count : Nat) :
    List α :=
  __fpda_swap_range st type_size range1_start range2_start count true

/-! ### Hash-table model (src/unnamed/part_000)

A hash table is a dynamic array of fixed-size element records (`slots` is
the allocated buffer of `capacity` records, each record modelled as a
`Nat`; `size` is the slot count `fpda_size(table)`), a parallel dynamic
array `entry_infos` of `size_t` words (bit 31 = occupancy, low bits =
hopscotch neighbourhood bits), and the configuration's pluggable hash and
equality functions with the neighbourhood / retry limits. -/

structure HashTable where
  size : Nat
  capacity : Nat
  slots : List Nat
  entry_infos : List Nat
  hash_function : Nat → Nat
  compare_function : Nat → Nat → Bool
  neighborhood_size : Nat
  max_fail_retries : Nat

/-- Translated from `__fpht_entry_info` (a pointer to `entry_infos[index]`). -/
def __fpht_entry_info (t : HashTable) (index : Nat) : Nat :=
  t.entry_infos.getD index 0

/-- Translated from `__fpht_entry_occupied`: `*entry_info(index) & (1 << 31)`. -/
def __fpht_entry_occupied (t : HashTable) (index : Nat) : Bool :=
  __fpht_entry_info t index &&& (1 <<< 31) != 0

/-- Translated from `__fpht_entry_set_occupied`.  The clearing branch stores
`*info &= ~(1 << 31)`: `~(1 << 31)` is computed on a 32-bit `int` and
zero-extends to the `size_t` value `0x7FFFFFFF`, so the store clears bit 31
(and any bits 32-63, which the table never sets in this model). -/
def __fpht_entry_set_occupied (t : HashTable) (index : Nat) (state : Bool) : HashTable :=
  if state then
    { t with entry_infos := t.entry_infos.set index (__fpht_entry_info t index ||| (1 <<< 31)) }
  else
    { t with entry_infos := t.entry_infos.set index (__fpht_entry_info t index &&& 0x7FFFFFFF) }

/-- Translated from `__fpht_hash`: `config->hash_function(key) % fpda_size(table)`. -/
def __fpht_hash (t : HashTable) (key : Nat) : Nat :=
  t.hash_function key % t.size

/-- Translated from `__fpht_find_empty_hash_position`: probe offsets
`0 ≤ i < neighborhood_size` from the home bucket, wrapping mod the slot
count, returning the first unoccupied probe, else `fp_not_found`. -/
def __fpht_find_empty_hash_position (t : HashTable) (hash : Nat) : Nat :=
  match (List.range t.neighborhood_size).find?
      (fun i => ! __fpht_entry_occupied t ((hash + i) % t.size)) with
  | some i => (hash + i) % t.size
  | none => fp_not_found

/-- Translated from `__fpht_hash_distance`:
`if(position < hash) return size - hash + position; else return position - hash;`
in `size_t` arithmetic. -/
def __fpht_hash_distance (size hash position : Nat) : Nat :=
  if position < hash then ((size + U64 - hash) % U64 + position) % U64
  else position - hash

/-- In the C source, `__fpht_insert` invokes
`__fpht_hash_distance(table, hash, position)` passing `table` — the
`void**` handle itself — where the function expects the table data pointer
`*table`.  `fpda_size` on the address of a stack/register slot fails the
fat-pointer magic check (`is_fpda` reads a magic tag that is not there), so
`fpda_size(table)` evaluates to 0. -/
def handle_fpda_size : Nat := 0

/-- The 64-bit word produced by storing `1 << d` into a `size_t` entry-info
word: bit `d` for `d < 64`, and no representable bit (0) for `d ≥ 64`.
(For `d ≥ 31` the C shift of the `int` literal 1 is formally UB; on real
targets the stored word holds a single bit whose index is congruent to `d`
mod the promoted operand width.  For every `d ≥ 64` arising in this file
that index is at least 8 under any of these readings, hence never a
neighbourhood bit, so the theorems below do not depend on the choice.) -/
def shift_bit_word (d : Nat) : Nat := if d < 64 then 1 <<< d else 0

/-- One iteration run of the `__fpht_rehash` slot loop, from slot `i` for
`remaining` further slots: read slot `i`'s occupancy, zero
`entry_infos[i]`, and when the slot was occupied copy its content to the
scratch buffer and re-insert it via `insertf` (the table pointer is re-read
after each insert, modelled by threading the updated table).  An insert
failure returns the failing index `i`; completion returns `fp_not_found`. -/
def __fpht_rehash_loop (insertf : HashTable → Nat → Nat → Option (HashTable × Nat))
    (failures : Nat) : HashTable → Nat → Nat → HashTable × Nat
  | t, _, 0 => (t, fp_not_found)
  | t, i, remaining + 1 =>
    let occupied := __fpht_entry_occupied t i
    let t1 := { t with entry_infos := t.entry_infos.set i 0 }
    if occupied then
      let scratch := t1.slots.getD i 0
      match insertf t1 scratch failures with
      | none => (t1, i)
      | some (t2, _) => __fpht_rehash_loop insertf failures t2 (i + 1) remaining
    else __fpht_rehash_loop insertf failures t1 (i + 1) remaining

/-- Translated from `__fpht_rehash` (src/unnamed/part_000), parameterised by
the insert routine so that the fuel-indexed `__fpht_insert` below can tie
the recursive knot: first grow `entry_infos` with zeroed words if manual
mutation left it shorter than the slot count, then run the slot loop over
the current `size` slots. -/
def __fpht_rehash_with (insertf : HashTable → Nat → Nat → Option (HashTable × Nat))
    (t : HashTable) (failures : Nat) : HashTable × Nat :=
  let size := t.size
  let t :=
    if t.entry_infos.length < size then
      { t with entry_infos := t.entry_infos ++ List.replicate (size - t.entry_infos.length) 0 }
    else t
  __fpht_rehash_loop insertf failures t 0 size

/-- The redistribution loop of `__fpht_double_size_and_rehash`: for each odd
`i` below the old size, copy slot `i` to slot `new_size - i`, `memset`
slot `i` to zero, and `fpda_swap` the two entry-info words (a `memswap` of
two distinct single-element ranges, i.e. an exchange). -/
def __fpht_redistribute_loop (new_size : Nat) : HashTable → Nat → Nat → HashTable
  | t, _, 0 => t
  | t, i, remaining + 1 =>
    let t' :=
      if i % 2 = 1 then
        let t1 := { t with slots := t.slots.set (new_size - i) (t.slots.getD i 0) }
        let t2 := { t1 with slots := t1.slots.set i 0 }
        let swapped := (t2.entry_infos.set i (t2.entry_infos.getD (new_size - i) 0)).set (new_size - i) (t2.entry_infos.getD i 0)
        { t2 with entry_infos := swapped }
      else t
    __fpht_redistribute_loop new_size t' (i + 1) remaining

/-- The pre-rehash part of `__fpht_double_size_and_rehash`: grow the slot
array to `2 * size` slots via `__fpht_maybe_grow(table, ts, new_size, true,
true)` (the hash-table instantiation of `__FP_MAYBE_GROW_IMPL`, whose
`COPY_EXTRA` carries `entry_infos` and the config across the reallocation),
append `size` zeroed entry-info words, and redistribute the odd slots. -/
def __fpht_double_pre (t : HashTable) : HashTable :=
  let size := t.size
  let new_size := size * 2
  let g := __fpda_maybe_grow (some ⟨t.size, t.capacity, t.slots⟩) 0 1 new_size true true
  let t := { t with size := g.arr.size, capacity := g.arr.capacity, slots := g.arr.data }
  let t := { t with entry_infos := t.entry_infos ++ List.replicate size 0 }
  __fpht_redistribute_loop new_size t 0 size

/-- Translated from `__fpht_double_size_and_rehash`, parameterised by the
insert routine used during the rehash. -/
def __fpht_double_size_and_rehash_with
    (insertf : HashTable → Nat → Nat → Option (HashTable × Nat))
    (t : HashTable) (failures : Nat) : HashTable × Nat :=
  __fpht_rehash_with insertf (__fpht_double_pre t) failures

/-- Translated from `__fpht_insert` (src/unnamed/part_000).  `fuel` bounds
the depth of the C recursion `insert → double-and-rehash → insert`: every
nested call carries `failures + 1` and is guarded by
`failures < max_fail_retries`, so any fuel exceeding
`max_fail_retries - failures` is never exhausted.  The body: compute the
home bucket, probe for an empty neighbourhood position; on probe
exhaustion with retries left, double-and-rehash (`if(!result) return NULL`
— only a rehash failure at index 0 aborts) and retry with `failures + 1`;
on exhaustion without retries return NULL; otherwise copy the key into the
found slot, OR `1 << __fpht_hash_distance(table-handle, hash, position)`
into `entry_infos[hash]` (see `handle_fpda_size`), and set the slot's
occupancy bit. -/
def __fpht_insert (fuel : Nat) : HashTable → Nat → Nat → Option (HashTable × Nat) :=
  Nat.rec (motive := fun _ => HashTable → Nat → Nat → Option (HashTable × Nat))
    (fun _ _ _ => none)
    (fun _ prev t key failures =>
      let hash := __fpht_hash t key
      let position := __fpht_find_empty_hash_position t hash
      if position = fp_not_found ∧ failures < t.max_fail_retries then
        let dres := __fpht_double_size_and_rehash_with prev t (failures + 1)
        if dres.2 = 0 then none
        else prev dres.1 key (failures + 1)
      else if position = fp_not_found then none
      else
        let t1 := { t with slots := t.slots.set position key }
        let dist := __fpht_hash_distance handle_fpda_size hash position
        let t2 := { t1 with entry_infos :=
            t1.entry_infos.set hash (__fpht_entry_info t1 hash ||| shift_bit_word dist) }
        let t3 := __fpht_entry_set_occupied t2 position true
        some (t3, position))
    fuel

/-- Translated from `fpht_insert_assume_unique`:
`__fpht_insert((void**)&table, key, 0)`, with fuel covering the full retry
budget. -/
def fpht_insert_assume_unique (t : HashTable) (key : Nat) : Option (HashTable × Nat) :=
  __fpht_insert (t.max_fail_retries + 1) t key 0

/-- Translated from `__fpht_find_position` (src/unnamed/part_000): scan probe
offsets `0 ≤ i < neighborhood_size`; skip offsets whose bit is clear in
`entry_infos[home]` and probes whose occupancy bit is clear; return the
first probe whose content the configured equality accepts, else
`fp_not_found`. -/
def __fpht_find_position (t : HashTable) (key : Nat) : Nat :=
  let hash := __fpht_hash t key
  let hash_info := __fpht_entry_info t hash
  match (List.range t.neighborhood_size).find?
      (fun i =>
        hash_info &&& (1 <<< i) != 0 &&
        __fpht_entry_occupied t ((hash + i) % t.size) &&
        t.compare_function key (t.slots.getD ((hash + i) % t.size) 0)) with
  | some i => (hash + i) % t.size
  | none => fp_not_found

/-- Translated from `fpht_remove_at_position`:
`__fpht_entry_set_occupied(table, position, false)`. -/
def fpht_remove_at_position (t : HashTable) (position : Nat) : HashTable :=
  __fpht_entry_set_occupied t position false

/-- Translated from `fpht_remove`: find the key's position; when found,
clear that slot's occupancy bit, else leave the table unchanged. -/
def fpht_remove (t : HashTable) (key : Nat) : HashTable :=
  let position := __fpht_find_position t key
  if position = fp_not_found then t else fpht_remove_at_position t position

/-- The counting loop of `fpht_occupied_size`:
`for(size_t i = fpda_size(table); --i; ) if(occupied(i)) ++count;`.
The argument is the value of `i` before the pre-decrement test, so the
body runs for `i = size-1, ..., 1` and the test stops the loop when the
decrement reaches 0 — slot 0 is never examined.  (The model assumes the
initial slot count is at least 1, so the `size_t` decrement never wraps.) -/
def fpht_occupied_size_loop (t : HashTable) : Nat → Nat
  | 0 => 0
  | i + 1 =>
    if i = 0 then 0
    else (if __fpht_entry_occupied t i then 1 else 0) + fpht_occupied_size_loop t i

/-- Translated from `fpht_occupied_size` for a non-null table (the C returns
0 for a NULL table before the loop). -/
def fpht_occupied_size (t : HashTable) : Nat :=
  fpht_occupied_size_loop t t.size

/-! ## Theorems -/

/-- Claim C10: passing NULL to the public query and free operations is total
and well-defined: `is_fp(NULL)` and `is_fpda(NULL)` are false,
`fp_length(NULL)` and `fpda_capacity(NULL)` are 0, `fpda_free(NULL)`
performs no deallocation, and NULL is dispatched to the static all-zero
null-header reference rather than dereferenced. -/
theorem null_pointer_queries_total :
    is_fp none = false ∧ is_fpda none = false ∧ fp_length none = 0 ∧
    fpda_capacity_of none = 0 ∧ fpda_free_frees none = false ∧
    __fpda_header none = ⟨0, 0, 0⟩ := by
  decide

/-- Claim C5 (code bug, at the failing input): when the pluggable allocator
returns NULL (0) for a growth request, the pointer layer's `__fp_alloc`
does propagate NULL, but `__fpda_malloc` adds
`FPDA_HEADER_SIZE + extra_header_size` to the failed result BEFORE its
null check, so it returns the non-null address `FPDA_HEADER_SIZE` and
writes the dynamic-array header fields near address 0 (here at address 0
itself) instead of propagating the failure as NULL. -/
theorem fpda_malloc_offsets_null_alloc :
    __fp_alloc_ret 0 = 0 ∧
    __fpda_malloc_ret 0 0 = FPDA_HEADER_SIZE ∧
    __fpda_malloc_ret 0 0 ≠ 0 ∧
    __fpda_malloc_header_addr 0 0 = 0 := by
  decide

/-- Claim C3 (code bug, at the failing input): for the views `a = ⟨[1], 1⟩`
and `b = ⟨[2,2], 2⟩` of different lengths, `fp_view_compare` returns 0
(its `return false` on a length mismatch converts to the int 0, the
"equal" result) and `fp_view_equal` returns true, although the claim (and
the function's own documentation) requires unequal-length views to compare
as not equal. -/
theorem view_compare_unequal_length_reports_equal :
    (fp_void_view.mk [1] 1).size ≠ (fp_void_view.mk [2, 2] 2).size ∧
    fp_view_compare ⟨[1], 1⟩ ⟨[2, 2], 2⟩ = 0 ∧
    fp_view_equal ⟨[1], 1⟩ ⟨[2, 2], 2⟩ = true := by
  decide

/-- Claim C7 (code bug, at the failing input): in a fresh 8-slot table whose
slot 0 is the only occupied slot (`entry_infos = [2^31, 0, ..., 0]`),
`fpht_occupied_size` returns 0, while the number of slots with the
occupancy bit set over every index `0 ≤ i < slot_count` is 1: the loop
`for(i = size; --i; )` never examines slot 0. -/
theorem fpht_occupied_size_skips_slot_zero :
    (fpht_occupied_size ⟨8, 8, List.replicate 8 0, [2 ^ 31, 0, 0, 0, 0, 0, 0, 0],
        id, (· == ·), 8, 8⟩ = 0) ∧
    ((List.range 8).countP (fun i => __fpht_entry_occupied
        ⟨8, 8, List.replicate 8 0, [2 ^ 31, 0, 0, 0, 0, 0, 0, 0],
          id, (· == ·), 8, 8⟩ i) = 1) := by
  decide

/-- Claim C2 (code bug, at the failing input): in a fresh default-sized table
(8 slots, neighbourhood 8, identity hash on `Nat` keys, equality compare),
inserting key 7 (home bucket 7, placed in slot 7) and then key 15 (home
bucket 7; slot 7 is occupied so the probe wraps to slot 0, probe offset 1)
succeeds and stores 15 in slot 0, but `__fpht_find_position` then fails to
find 15: `__fpht_insert` passes the table HANDLE instead of the table to
`__fpht_hash_distance`, so on a wrapped probe the computed distance is
`0 - 7 + 0` in `size_t` arithmetic instead of 1, and `1 << distance`
cannot set neighbourhood bit 1 of `entry_infos[7]` (under any reading of
the out-of-range shift the set bit index is ≥ 8). -/
theorem fpht_find_misses_wrapped_insert :
    ((fpht_insert_assume_unique ⟨8, 8, List.replicate 8 0, List.replicate 8 0,
        id, (· == ·), 8, 8⟩ 7).map
      (fun p => __fpht_find_position p.1 7) = some 7) ∧
    (((fpht_insert_assume_unique ⟨8, 8, List.replicate 8 0, List.replicate 8 0,
        id, (· == ·), 8, 8⟩ 7).bind
      (fun p => fpht_insert_assume_unique p.1 15)).map Prod.snd = some 0) ∧
    (((fpht_insert_assume_unique ⟨8, 8, List.replicate 8 0, List.replicate 8 0,
        id, (· == ·), 8, 8⟩ 7).bind
      (fun p => fpht_insert_assume_unique p.1 15)).map
      (fun p => p.1.slots.getD 0 0) = some 15) ∧
    (((fpht_insert_assume_unique ⟨8, 8, List.replicate 8 0, List.replicate 8 0,
        id, (· == ·), 8, 8⟩ 7).bind
      (fun p => fpht_insert_assume_unique p.1 15)).map
      (fun p => __fpht_find_position p.1 15) = some fp_not_found) := by
  decide

/-- Claim C4 (counterexample): on the 10-element byte array `[0,…,9]`,
`fpda_swap_range(0, 3, 5)` (overlapping ranges `[0,5)` and `[3,8)`)
produces `[3,4,5,0,1,2,3,4,8,9]`; the first range then holds `[3,4,5,0,1]`
rather than the other range's pre-swap contents `[3,4,5,6,7]` (elements 6
and 7 are lost and 3, 4 duplicated), refuting the claimed exact exchange
for overlapping ranges. -/
theorem swap_range_overlap_not_exact_exchange :
    (fpda_swap_range (DynArray.mk 10 10 [0, 1, 2, 3, 4, 5, 6, 7, 8, 9]) 1 0 3 5 =
      [3, 4, 5, 0, 1, 2, 3, 4, 8, 9]) ∧
    readRegion (fpda_swap_range (DynArray.mk 10 10 [0, 1, 2, 3, 4, 5, 6, 7, 8, 9]) 1 0 3 5) 0 5 ≠
      readRegion [0, 1, 2, 3, 4, 5, 6, 7, 8, 9] 3 5 := by
  decide

end LibFP
